import Mathlib

/-!
# Verification of the task-management route handlers

Shallow embedding of `src/app/api/tasks/route.ts` and the persisted data
model of `src/prisma/schema.prisma` (models `Task`, `Label`, `TaskLabel`).

Modelling conventions:
* The database is a record of lists, one per table, plus a counter used to
  generate fresh `cuid`-style identifiers.  Engine-managed timestamp columns
  (`createdAt`, `updatedAt`) are not observable through any claim and are
  omitted.
* Each storage call is a pure function; calls that the storage engine can
  reject return `Except String`.  Constraint checks from `schema.prisma`
  (the `@@unique([name, color])` index on `Label`, the composite
  `@@id([taskId, labelId])` key on `TaskLabel`) are enforced by those
  functions.
* Nondeterministic failure of the external storage engine is modelled by a
  Boolean oracle consulted before each storage call of the create
  transaction, and by two Booleans for the two storage calls of the delete
  handler.  The `noFail` oracle is the normal path.
* JavaScript date parsing (`new Date(s).getTime()` plus the `isNaN` test) is
  modelled by an abstract parameter `parseDate : String → Option Int`;
  `none` stands for an invalid date.  The truthiness test
  `data.dueDate ? new Date(data.dueDate) : null` is modelled exactly: the
  empty string is falsy, so it yields a null due date without consulting the
  parser.
* `prisma.$transaction` aborts atomically: when the transaction body fails,
  the handler observes the pre-transaction database unchanged.
-/

namespace TaskApi

/-- Model `Task` of `schema.prisma`: `priority` and `status` are plain
`String` columns (defaults `"MEDIUM"` / `"TODO"`), `dueDate` is a nullable
timestamp. -/
structure Task where
  id : String
  title : String
  description : Option String
  priority : String
  status : String
  dueDate : Option Int
deriving Repr, DecidableEq

/-- Model `Label` of `schema.prisma`. -/
structure Label where
  id : String
  name : String
  color : String
deriving Repr, DecidableEq

/-- Model `TaskLabel` of `schema.prisma`: a pure join row whose composite
primary key is `(taskId, labelId)`. -/
structure TaskLabel where
  taskId : String
  labelId : String
deriving Repr, DecidableEq

/-- The persisted store: one list per table, in insertion order, plus a
counter for generated identifiers. -/
structure DB where
  tasks : List Task
  labels : List Label
  taskLabels : List TaskLabel
  nextId : Nat
deriving Repr, DecidableEq

def DB.empty : DB := ⟨[], [], [], 0⟩

/-- Model of `cuid()` identifier generation: fresh ids come from the store's
counter. -/
def freshId (db : DB) : String := "c" ++ toString db.nextId

/-- Storage call `prisma.task.create` from the POST handler.  `title` is a
required column, so the client rejects a missing title; `priority` and
`status` fall back to their schema defaults when not provided; `description`
and `dueDate` are nullable. -/
def taskCreate (db : DB) (title description priority status : Option String)
    (dueDate : Option Int) : Except String (Task × DB) :=
  match title with
  | none => .error "Argument title is missing"
  | some t =>
    let task : Task :=
      { id := freshId db, title := t, description := description,
        priority := priority.getD "MEDIUM", status := status.getD "TODO",
        dueDate := dueDate }
    .ok (task, { db with tasks := db.tasks ++ [task], nextId := db.nextId + 1 })

/-- Storage call `prisma.label.findFirst({ where: { name: label.name } })`:
first label row whose `name` column matches; the `color` column is not part
of the filter. -/
def labelFindFirstByName (db : DB) (name : String) : Option Label :=
  db.labels.find? (fun lab => lab.name == name)

/-- Storage call `prisma.label.create`, subject to the
`@@unique([name, color])` constraint of `schema.prisma`. -/
def labelCreate (db : DB) (name color : String) : Except String (Label × DB) :=
  if db.labels.any (fun lab => lab.name == name && lab.color == color) then
    .error "Unique constraint failed on name and color"
  else
    let lab : Label := { id := freshId db, name := name, color := color }
    .ok (lab, { db with labels := db.labels ++ [lab], nextId := db.nextId + 1 })

/-- Storage call `prisma.taskLabel.create`, subject to the composite primary
key `@@id([taskId, labelId])` of `schema.prisma`. -/
def taskLabelCreate (db : DB) (taskId labelId : String) : Except String DB :=
  if (⟨taskId, labelId⟩ : TaskLabel) ∈ db.taskLabels then
    .error "Unique constraint failed on the composite primary key"
  else
    .ok { db with taskLabels := db.taskLabels ++ [⟨taskId, labelId⟩] }

/-- The storage calls issued inside the create transaction, indexed by loop
iteration where applicable. -/
inductive TxnStep where
  | taskInsert
  | labelLookup (i : Nat)
  | labelInsert (i : Nat)
  | assocInsert (i : Nat)
deriving DecidableEq

/-- Failure oracle for the external storage engine: `true` means the engine
errors at that call. -/
def StorageOracle := TxnStep → Bool

/-- The normal path: no engine-injected failure. -/
def noFail : StorageOracle := fun _ => false

/-- One entry of the request's `labels` array: `{name, color?}`. -/
structure LabelInput where
  name : String
  color : Option String
deriving Repr, DecidableEq

/-- The JavaScript fallback `label.color || '#3b82f6'`: an absent color and
the (falsy) empty string both yield the default. -/
def colorOrDefault : Option String → String
  | none => "#3b82f6"
  | some "" => "#3b82f6"
  | some c => c

/-- The `while` loop of the POST handler: for each requested label, look up
an existing `Label` by name, create one when absent, then insert the
`TaskLabel` association.  `i` is the loop index (used only to address the
failure oracle). -/
def processLabels (oracle : StorageOracle) (taskId : String) :
    List LabelInput → Nat → DB → Except String DB
  | [], _, db => .ok db
  | l :: rest, i, db =>
    if oracle (.labelLookup i) then .error "storage failure" else
    match labelFindFirstByName db l.name with
    | some existing =>
      if oracle (.assocInsert i) then .error "storage failure" else
      match taskLabelCreate db taskId existing.id with
      | .error e => .error e
      | .ok db1 => processLabels oracle taskId rest (i + 1) db1
    | none =>
      if oracle (.labelInsert i) then .error "storage failure" else
      match labelCreate db l.name (colorOrDefault l.color) with
      | .error e => .error e
      | .ok (newLabel, db1) =>
        if oracle (.assocInsert i) then .error "storage failure" else
        match taskLabelCreate db1 taskId newLabel.id with
        | .error e => .error e
        | .ok db2 => processLabels oracle taskId rest (i + 1) db2

/-- The `prisma.$transaction` body of the POST handler: create the task row,
then run the label loop on `data.labels || []`. -/
def createTaskTxn (oracle : StorageOracle) (db : DB)
    (title description priority status : Option String)
    (dueDate : Option Int) (labels : List LabelInput) :
    Except String (Task × DB) :=
  if oracle .taskInsert then .error "storage failure" else
  match taskCreate db title description priority status dueDate with
  | .error e => .error e
  | .ok (createdTask, db1) =>
    match processLabels oracle createdTask.id labels 0 db1 with
    | .error e => .error e
    | .ok db2 => .ok (createdTask, db2)

/-- The JSON body of `POST /api/tasks`; absent optional fields are `none`. -/
structure CreateRequest where
  title : Option String
  description : Option String
  priority : Option String
  status : Option String
  dueDate : Option String
  labels : Option (List LabelInput)
deriving Repr, DecidableEq

/-- Outcome of the POST handler: the created task serialized with HTTP 200,
or an error body `{error}` with the given HTTP status. -/
inductive PostResponse where
  | ok (task : Task)
  | err (status : Nat) (error : String)
deriving Repr, DecidableEq

/-- The due-date gate at the top of POST:
`const dueDate = data.dueDate ? new Date(data.dueDate) : null` followed by
`if (data.dueDate && isNaN(dueDate.getTime())) return 400`.  A missing or
empty (falsy) `dueDate` yields a null date without parsing; otherwise an
unparseable string is rejected. -/
def parseDueGate (parseDate : String → Option Int) :
    Option String → Except Unit (Option Int)
  | none => .ok none
  | some s =>
    if s = "" then .ok none
    else
      match parseDate s with
      | none => .error ()
      | some d => .ok (some d)

/-- The POST handler: due-date gate, then the transaction; a transaction
failure is caught and mapped to 500 with the generic body, and by
transaction atomicity the store is unchanged in that case.  Note that the
zod validators `CreateTaskSchema` and `LabelSchema` declared in the source
file are never invoked by the handler, so no schema validation appears
here. -/
def POST (parseDate : String → Option Int) (oracle : StorageOracle)
    (db : DB) (req : CreateRequest) : PostResponse × DB :=
  match parseDueGate parseDate req.dueDate with
  | .error _ => (.err 400 "Invalid due date format", db)
  | .ok dueDate =>
    match createTaskTxn oracle db req.title req.description req.priority
        req.status dueDate (req.labels.getD []) with
    | .error _ => (.err 500 "Failed to create task", db)
    | .ok (task, db1) => (.ok task, db1)

/-- The repeatable query parameters of `GET /api/tasks`. -/
structure GetParams where
  labelNames : List String
  statuses : List String
  priorities : List String
deriving Repr, DecidableEq

/-- The dynamically built `where` clause of the GET handler: each filter
category contributes an `in`-membership conjunct only when its parameter
list is nonempty; the label conjunct is Prisma's `labels: some` — the task
has at least one association whose label's name is in the requested set. -/
def taskMatchesWhere (db : DB) (p : GetParams) (t : Task) : Bool :=
  (p.labelNames.isEmpty || db.taskLabels.any fun tl =>
    tl.taskId == t.id && db.labels.any fun lab =>
      lab.id == tl.labelId && p.labelNames.contains lab.name)
  && (p.statuses.isEmpty || p.statuses.contains t.status)
  && (p.priorities.isEmpty || p.priorities.contains t.priority)

/-- `orderBy: { dueDate: 'asc' }` under SQLite's null-ordering convention:
null due dates sort first. -/
def dueDateLe (a b : Task) : Bool :=
  match a.dueDate, b.dueDate with
  | none, _ => true
  | some _, none => false
  | some x, some y => x ≤ y

/-- The GET handler on its success path: `findMany` with the dynamic
`where` clause and ascending due-date ordering.  The `include` of label
rows only shapes the serialized payload and is not modelled. -/
def GET (db : DB) (p : GetParams) : List Task :=
  (db.tasks.filter (taskMatchesWhere db p)).mergeSort dueDateLe

/-- Failure oracle for the two storage calls of the DELETE handler. -/
structure DeleteOracle where
  deleteManyFails : Bool
  taskDeleteFails : Bool
deriving Repr, DecidableEq

/-- Outcome of the DELETE handler: the deleted task with HTTP 200, or an
error body `{error, details?}` with the given HTTP status. -/
inductive DeleteResponse where
  | ok (data : Task)
  | err (status : Nat) (error : String) (details : Option String)
deriving Repr, DecidableEq

/-- The DELETE handler: reject a missing or empty (falsy) `id` parameter
with 400, then — with no wrapping transaction — `taskLabel.deleteMany` for
the task id followed by `task.delete`, which the storage engine rejects
when no task row has that id.  Each caught failure maps to 500, leaving
whatever state the completed calls produced. -/
def DELETE (oracle : DeleteOracle) (db : DB) (id : Option String) :
    DeleteResponse × DB :=
  match id with
  | none => (.err 400 "Task ID is required" none, db)
  | some taskId =>
    if taskId = "" then (.err 400 "Task ID is required" none, db)
    else if oracle.deleteManyFails then
      (.err 500 "Failed to delete task" (some "storage failure"), db)
    else
      let db1 : DB :=
        { db with taskLabels := db.taskLabels.filter fun tl => tl.taskId != taskId }
      if oracle.taskDeleteFails then
        (.err 500 "Failed to delete task" (some "storage failure"), db1)
      else
        match db1.tasks.find? (fun t => t.id == taskId) with
        | none =>
          (.err 500 "Failed to delete task" (some "Record to delete does not exist."), db1)
        | some deletedTask =>
          (.ok deletedTask,
           { db1 with tasks := db1.tasks.filter fun t => t.id != taskId })

end TaskApi

namespace TaskApi

/-- C1: during task creation, the existing-label lookup matches on name
only: when a label with the requested name already exists, the loop
iteration adds exactly the `TaskLabel` association to that label's
identifier — whatever color the request carries — and continues on a store
whose `labels` table is unchanged, so no new `Label` row is created and the
existing label's color is not updated. -/
theorem c1_label_lookup_by_name_only
    (db : DB) (taskId : String) (l : LabelInput) (rest : List LabelInput)
    (i : Nat) (lab : Label)
    (hfound : labelFindFirstByName db l.name = some lab)
    (hfreshAssoc : (⟨taskId, lab.id⟩ : TaskLabel) ∉ db.taskLabels) :
    processLabels noFail taskId (l :: rest) i db =
      processLabels noFail taskId rest (i + 1)
        { db with taskLabels := db.taskLabels ++ [⟨taskId, lab.id⟩] } := by
  simp [processLabels, noFail, hfound, taskLabelCreate, hfreshAssoc]

/-- Witness for C1 at a concrete store: the label named `work` exists with
color `#ff0000`, the request asks for `work` with color `#00ff00`, and the
iteration reuses the stored label's id without touching the labels table. -/
theorem c1_witness :
    labelFindFirstByName ⟨[], [⟨"L1", "work", "#ff0000"⟩], [], 5⟩ "work" =
        some ⟨"L1", "work", "#ff0000"⟩ ∧
    (⟨"t1", "L1"⟩ : TaskLabel) ∉ (⟨[], [⟨"L1", "work", "#ff0000"⟩], [], 5⟩ : DB).taskLabels ∧
    processLabels noFail "t1" [⟨"work", some "#00ff00"⟩] 0
        ⟨[], [⟨"L1", "work", "#ff0000"⟩], [], 5⟩ =
      processLabels noFail "t1" [] 1 ⟨[], [⟨"L1", "work", "#ff0000"⟩], [⟨"t1", "L1"⟩], 5⟩ :=
  ⟨by decide, by decide,
    c1_label_lookup_by_name_only _ _ ⟨"work", some "#00ff00"⟩ [] 0
      ⟨"L1", "work", "#ff0000"⟩ (by decide) (by decide)⟩

/-- C2 (code behavior at the failing input): the zod schema that would
reject an invalid priority is never invoked, so a request with priority
`URGENT` is accepted: the handler returns the created task with HTTP 200
and the task row is persisted with priority `URGENT`. -/
theorem c2_urgent_priority_persisted :
    POST (fun _ => none) noFail DB.empty
        ⟨some "t", none, some "URGENT", none, none, none⟩ =
      (.ok ⟨"c0", "t", none, "URGENT", "TODO", none⟩,
       ⟨[⟨"c0", "t", none, "URGENT", "TODO", none⟩], [], [], 1⟩) := by
  rfl

/-- C3: whenever the body of the create transaction fails — at the task
insert, a label lookup or create, or an association create, whether by a
constraint violation or an engine failure — the handler returns HTTP 500
with body error `Failed to create task` and the store is exactly the
pre-request store: no task, label, or association row persists. -/
theorem c3_txn_failure_rolls_back
    (parseDate : String → Option Int) (oracle : StorageOracle) (db : DB)
    (req : CreateRequest) (dd : Option Int) (e : String)
    (hgate : parseDueGate parseDate req.dueDate = .ok dd)
    (htxn : createTaskTxn oracle db req.title req.description req.priority
        req.status dd (req.labels.getD []) = .error e) :
    POST parseDate oracle db req = (.err 500 "Failed to create task", db) := by
  simp [POST, hgate, htxn]

/-- Witness for C3: a request with no title makes the task insert fail, and
the handler answers 500 leaving the empty store unchanged. -/
theorem c3_witness :
    parseDueGate (fun _ => none) (none : Option String) = .ok none ∧
    createTaskTxn noFail DB.empty none none none none none [] =
        .error "Argument title is missing" ∧
    POST (fun _ => none) noFail DB.empty ⟨none, none, none, none, none, none⟩ =
      (.err 500 "Failed to create task", DB.empty) :=
  ⟨rfl, rfl,
    c3_txn_failure_rolls_back (fun _ => none) noFail DB.empty
      ⟨none, none, none, none, none, none⟩ none "Argument title is missing" rfl rfl⟩

/-- C5: the DELETE handler deletes the associations first and the task row
second with no wrapping transaction, so when the engine fails exactly
between the two calls the handler answers 500 while the store keeps the
task row but has lost every association referencing it. -/
theorem c5_delete_window_not_transactional
    (db : DB) (taskId : String) (h : taskId ≠ "") :
    DELETE ⟨false, true⟩ db (some taskId) =
      (.err 500 "Failed to delete task" (some "storage failure"),
       { db with taskLabels := db.taskLabels.filter fun tl => tl.taskId != taskId }) := by
  simp [DELETE, h]

/-- Witness for C5: a store with one task and one association; after the
injected failure the association is gone and the task row remains. -/
theorem c5_witness :
    ("t1" : String) ≠ "" ∧
    DELETE ⟨false, true⟩ ⟨[⟨"t1", "a", none, "MEDIUM", "TODO", none⟩], [], [⟨"t1", "L1"⟩], 3⟩
        (some "t1") =
      (.err 500 "Failed to delete task" (some "storage failure"),
       ⟨[⟨"t1", "a", none, "MEDIUM", "TODO", none⟩], [], [], 3⟩) := by
  refine ⟨by decide, ?_⟩
  have h := c5_delete_window_not_transactional
    ⟨[⟨"t1", "a", none, "MEDIUM", "TODO", none⟩], [], [⟨"t1", "L1"⟩], 3⟩ "t1" (by decide)
  simpa using h

/-- C6 as stated is false: an empty-string `dueDate` is present and
unparseable (here the parser rejects every string), yet the truthiness
check treats it as absent, so the handler does not answer 400 and a task
row is persisted. -/
theorem c6_counterexample :
    (POST (fun _ => none) noFail DB.empty
        ⟨some "t", none, none, none, some "", none⟩).1 =
      .ok ⟨"c0", "t", none, "MEDIUM", "TODO", none⟩ ∧
    (POST (fun _ => none) noFail DB.empty
        ⟨some "t", none, none, none, some "", none⟩).1 ≠
      .err 400 "Invalid due date format" ∧
    (POST (fun _ => none) noFail DB.empty
        ⟨some "t", none, none, none, some "", none⟩).2.tasks =
      [⟨"c0", "t", none, "MEDIUM", "TODO", none⟩] := by
  refine ⟨rfl, by decide, rfl⟩

/-- C6 amended: for a present, nonempty, unparseable `dueDate` the handler
answers HTTP 400 with body error `Invalid due date format` before any
storage call, leaving the store untouched. -/
theorem c6_bad_due_date_rejected
    (parseDate : String → Option Int) (oracle : StorageOracle) (db : DB)
    (req : CreateRequest) (s : String)
    (hdue : req.dueDate = some s) (hne : s ≠ "") (hparse : parseDate s = none) :
    POST parseDate oracle db req = (.err 400 "Invalid due date format", db) := by
  simp [POST, parseDueGate, hdue, hne, hparse]

/-- Witness for the amended C6 at the concrete request of the spec:
`dueDate` equal to `not-a-date` is rejected with 400 on an unchanged
store. -/
theorem c6_witness :
    (⟨some "t", none, none, none, some "not-a-date", none⟩ : CreateRequest).dueDate =
        some "not-a-date" ∧
    ("not-a-date" : String) ≠ "" ∧
    (fun _ : String => (none : Option Int)) "not-a-date" = none ∧
    POST (fun _ => none) noFail DB.empty
        ⟨some "t", none, none, none, some "not-a-date", none⟩ =
      (.err 400 "Invalid due date format", DB.empty) :=
  ⟨rfl, by decide, rfl,
    c6_bad_due_date_rejected (fun _ => none) noFail DB.empty
      ⟨some "t", none, none, none, some "not-a-date", none⟩ "not-a-date" rfl
      (by decide) rfl⟩

/-- C7 (code behavior at the failing input): the zod schema that would
reject an empty title is never invoked, so a request whose title is the
empty string is accepted: the handler returns HTTP 200 and persists a task
row with an empty title. -/
theorem c7_empty_title_persisted :
    POST (fun _ => none) noFail DB.empty
        ⟨some "", none, none, none, none, none⟩ =
      (.ok ⟨"c0", "", none, "MEDIUM", "TODO", none⟩,
       ⟨[⟨"c0", "", none, "MEDIUM", "TODO", none⟩], [], [], 1⟩) := by
  rfl

/-- C8: a create request that supplies only a title yields a created task
with priority `MEDIUM`, status `TODO`, and a null due date. -/
theorem c8_title_only_defaults
    (parseDate : String → Option Int) (db : DB) (t : String) :
    ∃ task db1,
      POST parseDate noFail db ⟨some t, none, none, none, none, none⟩ =
        (.ok task, db1) ∧
      task.priority = "MEDIUM" ∧ task.status = "TODO" ∧ task.dueDate = none := by
  exact ⟨_, _, rfl, rfl, rfl, rfl⟩

/-- C10: a DELETE request whose `id` parameter is absent, or present as the
(falsy) empty string, answers HTTP 400 with body error `Task ID is
required`; no storage call is made, so the store is unchanged whatever the
engine would have done. -/
theorem c10_missing_or_empty_id_rejected (oracle : DeleteOracle) (db : DB) :
    DELETE oracle db none = (.err 400 "Task ID is required" none, db) ∧
    DELETE oracle db (some "") = (.err 400 "Task ID is required" none, db) := by
  exact ⟨rfl, rfl⟩

end TaskApi

namespace TaskApi

/-- C4: the GET handler returns a task iff it is stored and satisfies the
conjunction of the supplied filter categories, where membership within a
category is disjunctive — a requested label-name set demands at least one
association to a label whose name is in the set, requested status and
priority sets demand membership of the task's field — and with no filters
every stored task is returned. -/
theorem c4_get_filter_semantics (db : DB) (p : GetParams) (t : Task) :
    (t ∈ GET db p ↔
      t ∈ db.tasks ∧
      (p.labelNames ≠ [] →
        ∃ tl ∈ db.taskLabels, tl.taskId = t.id ∧
          ∃ lab ∈ db.labels, lab.id = tl.labelId ∧ lab.name ∈ p.labelNames) ∧
      (p.statuses ≠ [] → t.status ∈ p.statuses) ∧
      (p.priorities ≠ [] → t.priority ∈ p.priorities)) ∧
    (p.labelNames = [] → p.statuses = [] → p.priorities = [] →
      (t ∈ GET db p ↔ t ∈ db.tasks)) := by
  have hmem : t ∈ GET db p ↔ t ∈ db.tasks ∧ taskMatchesWhere db p t = true := by
    simp [GET, List.mem_mergeSort, List.mem_filter]
  have hbool : taskMatchesWhere db p t = true ↔
      (p.labelNames = [] ∨ ∃ tl ∈ db.taskLabels, tl.taskId = t.id ∧
         ∃ lab ∈ db.labels, lab.id = tl.labelId ∧ lab.name ∈ p.labelNames) ∧
      (p.statuses = [] ∨ t.status ∈ p.statuses) ∧
      (p.priorities = [] ∨ t.priority ∈ p.priorities) := by
    simp only [taskMatchesWhere, Bool.and_eq_true, Bool.or_eq_true, List.any_eq_true,
      Bool.and_eq_true, beq_iff_eq, List.isEmpty_iff, List.contains, List.elem_iff, and_assoc]
  constructor
  · rw [hmem, hbool]
    constructor
    · rintro ⟨ht, h1, h2, h3⟩
      exact ⟨ht, fun hne => h1.resolve_left hne, fun hne => h2.resolve_left hne,
        fun hne => h3.resolve_left hne⟩
    · rintro ⟨ht, h1, h2, h3⟩
      refine ⟨ht, ?_, ?_, ?_⟩
      · by_cases hne : p.labelNames = []
        · exact Or.inl hne
        · exact Or.inr (h1 hne)
      · by_cases hne : p.statuses = []
        · exact Or.inl hne
        · exact Or.inr (h2 hne)
      · by_cases hne : p.priorities = []
        · exact Or.inl hne
        · exact Or.inr (h3 hne)
  · intro hl hs hp
    rw [hmem]
    simp [hbool, hl, hs, hp]

end TaskApi

namespace TaskApi

/-- One iteration of the label loop either fails, or hands the tail a store
that extends the labels table by at most the created label, appends exactly
one association for the resolved label, and in which the head's name now
resolves to that label. -/
theorem processLabels_cons_cases (tid : String) (l : LabelInput)
    (rest : List LabelInput) (i : Nat) (db : DB) :
    (∃ e, processLabels noFail tid (l :: rest) i db = .error e) ∨
    (∃ extra lab db1,
       db1.labels = db.labels ++ extra ∧
       db1.taskLabels = db.taskLabels ++ [⟨tid, lab.id⟩] ∧
       labelFindFirstByName db1 l.name = some lab ∧
       processLabels noFail tid (l :: rest) i db =
         processLabels noFail tid rest (i + 1) db1) := by
  cases hfind : labelFindFirstByName db l.name with
  | some existing =>
    by_cases hmem : (⟨tid, existing.id⟩ : TaskLabel) ∈ db.taskLabels
    · left
      exact ⟨"Unique constraint failed on the composite primary key",
        by simp [processLabels, noFail, hfind, taskLabelCreate, hmem]⟩
    · right
      refine ⟨[], existing, { db with taskLabels := db.taskLabels ++ [⟨tid, existing.id⟩] },
        by simp, rfl, ?_, ?_⟩
      · simpa [labelFindFirstByName] using hfind
      · simp [processLabels, noFail, hfind, taskLabelCreate, hmem]
  | none =>
    have hnone : ∀ lab ∈ db.labels, ¬(lab.name == l.name) = true := by
      simpa [labelFindFirstByName, List.find?_eq_none] using hfind
    have hany : (db.labels.any fun lab =>
        lab.name == l.name && lab.color == colorOrDefault l.color) = false := by
      simp only [List.any_eq_false, Bool.and_eq_true, not_and]
      intro lab hlab hname
      exact absurd hname (hnone lab hlab)
    by_cases hmem2 : (⟨tid, freshId db⟩ : TaskLabel) ∈ db.taskLabels
    · left
      exact ⟨"Unique constraint failed on the composite primary key",
        by simp [processLabels, noFail, hfind, labelCreate, hany, taskLabelCreate, hmem2]⟩
    · right
      refine ⟨[⟨freshId db, l.name, colorOrDefault l.color⟩],
        ⟨freshId db, l.name, colorOrDefault l.color⟩,
        { db with labels := db.labels ++ [⟨freshId db, l.name, colorOrDefault l.color⟩],
                  nextId := db.nextId + 1,
                  taskLabels := db.taskLabels ++ [⟨tid, freshId db⟩] },
        rfl, rfl, ?_, ?_⟩
      · simp [labelFindFirstByName, List.find?_append]
        right
        simpa [labelFindFirstByName, List.find?_eq_none] using hfind
      · simp [processLabels, noFail, hfind, labelCreate, hany, taskLabelCreate, hmem2]

end TaskApi

namespace TaskApi

/-- If some label name in the remaining list already resolves to a label
whose association with the task exists, the loop fails: the lookup keeps
resolving that name to the same row, so the association insert violates
the composite primary key. -/
theorem processLabels_fails_of_assoc
    (tid n : String) (L : List LabelInput) (i : Nat) (db : DB) (lab : Label)
    (hfind : labelFindFirstByName db n = some lab)
    (hassoc : (⟨tid, lab.id⟩ : TaskLabel) ∈ db.taskLabels)
    (hmem : n ∈ L.map LabelInput.name) :
    ∃ e, processLabels noFail tid L i db = .error e := by
  induction L generalizing i db lab with
  | nil => simp at hmem
  | cons l rest ih =>
    by_cases hl : l.name = n
    · refine ⟨"Unique constraint failed on the composite primary key", ?_⟩
      have hfind' : labelFindFirstByName db l.name = some lab := hl ▸ hfind
      simp [processLabels, noFail, hfind', taskLabelCreate, hassoc]
    · have hmem' : n ∈ rest.map LabelInput.name := by
        rw [List.map_cons, List.mem_cons] at hmem
        rcases hmem with h | h
        · exact absurd h.symm hl
        · exact h
      rcases processLabels_cons_cases tid l rest i db with ⟨e, he⟩ | ⟨extra, lab1, db1, hlabels, htls, _, heq⟩
      · exact ⟨e, he⟩
      · have hfind1 : labelFindFirstByName db1 n = some lab := by
          simp only [labelFindFirstByName] at hfind ⊢
          rw [hlabels, List.find?_append, hfind]
          rfl
        have hassoc1 : (⟨tid, lab.id⟩ : TaskLabel) ∈ db1.taskLabels := by
          rw [htls]
          exact List.mem_append_left _ hassoc
        rw [heq]
        exact ih (i + 1) db1 lab hfind1 hassoc1 hmem'

/-- A label list whose names are not pairwise distinct always makes the
label loop fail: the occurrence after the first resolves — by the
name-only lookup — to the identifier already associated in the same
transaction. -/
theorem processLabels_fails_of_dup
    (tid : String) (L : List LabelInput) (i : Nat) (db : DB)
    (hdup : ¬ (L.map LabelInput.name).Nodup) :
    ∃ e, processLabels noFail tid L i db = .error e := by
  induction L generalizing i db with
  | nil => simp at hdup
  | cons l rest ih =>
    rw [List.map_cons, List.nodup_cons, not_and_or, not_not] at hdup
    rcases processLabels_cons_cases tid l rest i db with ⟨e, he⟩ | ⟨extra, lab1, db1, hlabels, htls, hfind1, heq⟩
    · exact ⟨e, he⟩
    · rw [heq]
      rcases hdup with hmem | hdup'
      · have hassoc1 : (⟨tid, lab1.id⟩ : TaskLabel) ∈ db1.taskLabels := by
          rw [htls]
          exact List.mem_append_right _ (List.mem_singleton.mpr rfl)
        exact processLabels_fails_of_assoc tid l.name rest (i + 1) db1 lab1 hfind1 hassoc1 hmem
      · exact ih (i + 1) db1 hdup'

/-- C9: a create request whose label list contains the same name twice
fails: the later iteration resolves the name to the label row already
associated inside the transaction, the association insert violates the
composite primary key, the transaction rolls back, and the handler answers
HTTP 500 with the generic body on an unchanged store. -/
theorem c9_duplicate_label_name_rolls_back
    (parseDate : String → Option Int) (db : DB) (req : CreateRequest) (dd : Option Int)
    (hgate : parseDueGate parseDate req.dueDate = .ok dd)
    (hdup : ¬ (((req.labels.getD []).map LabelInput.name).Nodup)) :
    POST parseDate noFail db req = (.err 500 "Failed to create task", db) := by
  cases htitle : req.title with
  | none =>
    have htxn : createTaskTxn noFail db req.title req.description req.priority
        req.status dd (req.labels.getD []) = .error "Argument title is missing" := by
      simp [createTaskTxn, noFail, taskCreate, htitle]
    simp [POST, hgate, htxn]
  | some t =>
    obtain ⟨e, he⟩ := processLabels_fails_of_dup (freshId db) (req.labels.getD []) 0
      ⟨db.tasks ++ [⟨freshId db, t, req.description, req.priority.getD "MEDIUM",
        req.status.getD "TODO", dd⟩], db.labels, db.taskLabels, db.nextId + 1⟩ hdup
    have htxn : createTaskTxn noFail db req.title req.description req.priority
        req.status dd (req.labels.getD []) = .error e := by
      simp [createTaskTxn, noFail, taskCreate, htitle, he]
    simp [POST, hgate, htxn]

/-- Witness for C9: two `work` labels in one request make the create fail
with 500 and leave the empty store empty. -/
theorem c9_witness :
    parseDueGate (fun _ => none)
        ((⟨some "t", none, none, none, none,
          some [⟨"work", some "#ff0000"⟩, ⟨"work", some "#00ff00"⟩]⟩ : CreateRequest)).dueDate =
      .ok none ∧
    ¬ ((((⟨some "t", none, none, none, none,
          some [⟨"work", some "#ff0000"⟩, ⟨"work", some "#00ff00"⟩]⟩ :
            CreateRequest)).labels.getD []).map LabelInput.name).Nodup ∧
    POST (fun _ => none) noFail DB.empty
        ⟨some "t", none, none, none, none,
         some [⟨"work", some "#ff0000"⟩, ⟨"work", some "#00ff00"⟩]⟩ =
      (.err 500 "Failed to create task", DB.empty) :=
  ⟨rfl, by decide,
    c9_duplicate_label_name_rolls_back (fun _ => none) DB.empty
      ⟨some "t", none, none, none, none,
       some [⟨"work", some "#ff0000"⟩, ⟨"work", some "#00ff00"⟩]⟩ none rfl (by decide)⟩

end TaskApi
